import Mathlib

/-!
# Verification of the mail-triage core pipeline

Shallow embedding of the mail-triage application's core logic:
the priority scoring engine (`score_message` in `app.py`), the message
fetch/hydration pipeline (`GmailClient.fetch_recent_messages`,
`_hydrate_message`, `_fetch_thread_size`, `_extract_bodies` in
`gmail_client.py`) and the reply composer (`generate_reply`,
`_rule_based_reply` in `reply_generation.py`).

Remote provider calls and external library calls (dateutil's date
parsing, the generation-service client) are abstracted as explicit
function parameters describing their observable results; standard
library behaviours used by the code (URL-safe base64 decoding, UTF-8
decoding with errors ignored, BeautifulSoup HTML re-serialisation and
text extraction) are modelled as executable Lean functions.

Exceptions raised by Python code are modelled with `Except`.
Timestamps are modelled as `Int` seconds since the epoch (the code
normalises every datetime to UTC before use).
-/

/-! ## Data model: `GmailMessage` (dataclass in `gmail_client.py`) -/

structure GmailMessage where
  id : String
  thread_id : String
  subject : String
  sender : String
  /-- POSIX timestamp, seconds, UTC (the code stores a tz-aware datetime
  normalised with `astimezone(timezone.utc)`). -/
  date : Int
  snippet : String
  labels : List String
  unread : Bool
  starred : Bool
  important : Bool
  thread_size : Nat
  body_text : String
  body_html : String
  «to» : String
  cc : String
  cc_only : Bool
deriving DecidableEq

/-! ## Python string primitives used across the code

Modelled over character lists so that they evaluate inside the kernel. -/

/-- Python's `str.strip()` whitespace set. -/
def pyWhitespace (c : Char) : Bool :=
  c = ' ' || c = '\t' || c = '\n' || c = '\r' || c = '\x0b' || c = '\x0c'

/-- Python's `str.strip()`. -/
def pyStrip (s : String) : String :=
  ((s.toList.dropWhile pyWhitespace).reverse.dropWhile pyWhitespace).reverse.asString

/-- Python's `str.lower()` (ASCII model, mapping `Char.toLower` over the
characters). -/
def pyLower (s : String) : String := (s.toList.map Char.toLower).asString

deriving instance DecidableEq for Except

/-! ## Scoring engine (`score_message` in `app.py`) -/

/-- Python's substring test `pat in s`, on Lean strings. -/
def strContains (s pat : String) : Bool :=
  go s.toList
where
  go : List Char → Bool
    | [] => pat.toList.isPrefixOf []
    | c :: rest => pat.toList.isPrefixOf (c :: rest) || go rest

/-- `ACTION_WORDS` constant from `app.py`. -/
def ACTION_WORDS : List String :=
  ["urgent", "deadline", "action", "répond", "reply", "due", "please", "asap"]

/-- `NEWSLETTER_PATTERNS` constant from `app.py`. -/
def NEWSLETTER_PATTERNS : List String :=
  ["unsubscribe", "newsletter", "no-reply", "noreply", "bulletin"]

/-- `text_blob` local of `score_message`:
`f"{message.subject} {message.snippet} {message.body_text}".lower()`. -/
def textBlob (m : GmailMessage) : String :=
  pyLower (m.subject ++ " " ++ m.snippet ++ " " ++ m.body_text)

/-- Rule 1 condition: `message.unread`. -/
def condUnread (m : GmailMessage) : Bool := m.unread

/-- Rule 2 condition:
`"no-reply" not in message.sender.lower() and "noreply" not in message.sender.lower()`. -/
def condHuman (m : GmailMessage) : Bool :=
  !(strContains (pyLower m.sender) "no-reply") && !(strContains (pyLower m.sender) "noreply")

/-- Rule 3 condition:
`"?" in message.subject or any(word in text_blob for word in ACTION_WORDS)`. -/
def condAction (m : GmailMessage) : Bool :=
  strContains m.subject "?" || ACTION_WORDS.any (fun w => strContains (textBlob m) w)

/-- Rule 4 condition:
`message.subject.lower().startswith("re:") and message.thread_size > 2`. -/
def condThread (m : GmailMessage) : Bool :=
  (pyLower m.subject).startsWith "re:" && decide (2 < m.thread_size)

/-- Rule 5 condition: `message.starred or message.important`. -/
def condStar (m : GmailMessage) : Bool := m.starred || m.important

/-- Rule 6 condition:
`(datetime.now(tz.UTC) - message.date).total_seconds() < 48 * 3600`,
with `now` the evaluation time. -/
def condRecent (m : GmailMessage) (now : Int) : Bool :=
  decide (now - m.date < 48 * 3600)

/-- Rule 7 condition: `message.cc_only`. -/
def condCc (m : GmailMessage) : Bool := m.cc_only

/-- Rule 8 condition: `any(pattern in text_blob for pattern in NEWSLETTER_PATTERNS)`. -/
def condNews (m : GmailMessage) : Bool :=
  NEWSLETTER_PATTERNS.any (fun w => strContains (textBlob m) w)

/-- `score_message` from `app.py`: sequential accumulation over the eight
rules, then `max(0, min(100, score))` once at the end.  `now` is the
evaluation time used by rule 6. -/
def score_message (m : GmailMessage) (now : Int) : Int × List String :=
  let score : Int := 0
  let reasons : List String := []
  let (score, reasons) :=
    if condUnread m then (score + 25, reasons ++ ["Non lu"]) else (score, reasons)
  let (score, reasons) :=
    if condHuman m then (score + 15, reasons ++ ["Expéditeur humain"]) else (score, reasons)
  let (score, reasons) :=
    if condAction m then (score + 10, reasons ++ ["Contient une question ou action"])
    else (score, reasons)
  let (score, reasons) :=
    if condThread m then (score + 10, reasons ++ ["Long fil 'Re:'"]) else (score, reasons)
  let (score, reasons) :=
    if condStar m then (score + 15, reasons ++ ["Marqué important"]) else (score, reasons)
  let (score, reasons) :=
    if condRecent m now then (score + 10, reasons ++ ["Récent (<48h)"]) else (score, reasons)
  let (score, reasons) :=
    if condCc m then (score - 10, reasons ++ ["Uniquement en copie"]) else (score, reasons)
  let (score, reasons) :=
    if condNews m then (score - 20, reasons ++ ["Newsletter présumée"]) else (score, reasons)
  (max 0 (min 100 score), reasons)

/-- Specification-side rule table for §4.4: the eight rules in their fixed
evaluation order, each with its trigger condition, weight and fixed
human-readable label. -/
def scoringRules (m : GmailMessage) (now : Int) : List (Bool × Int × String) :=
  [(condUnread m, 25, "Non lu"),
   (condHuman m, 15, "Expéditeur humain"),
   (condAction m, 10, "Contient une question ou action"),
   (condThread m, 10, "Long fil 'Re:'"),
   (condStar m, 15, "Marqué important"),
   (condRecent m now, 10, "Récent (<48h)"),
   (condCc m, -10, "Uniquement en copie"),
   (condNews m, -20, "Newsletter présumée")]

/-- The sub-table of triggered rules, in rule order. -/
def triggeredRules (m : GmailMessage) (now : Int) : List (Bool × Int × String) :=
  (scoringRules m now).filter (fun r => r.1)

/-- Un-clamped score: the sum of the weights of the triggered rules. -/
def rawScore (m : GmailMessage) (now : Int) : Int :=
  ((triggeredRules m now).map (fun r => r.2.1)).sum

/-- The labels of the triggered rules, in rule order. -/
def ruleReasons (m : GmailMessage) (now : Int) : List String :=
  (triggeredRules m now).map (fun r => r.2.2)

set_option maxHeartbeats 2000000 in
/-- C1: for every Message, `score_message` returns a score in `[0, 100]`
obtained by clamping the raw rule-weight sum exactly once at the end, and
the reasons list is exactly the list of labels of the triggered rules of
§4.4, one per triggered rule, in the fixed rule order 1..8. -/
theorem score_message_spec (m : GmailMessage) (now : Int) :
    score_message m now = (max 0 (min 100 (rawScore m now)), ruleReasons m now) ∧
    0 ≤ (score_message m now).1 ∧ (score_message m now).1 ≤ 100 := by
  cases h1 : condUnread m <;> cases h2 : condHuman m <;> cases h3 : condAction m <;>
    cases h4 : condThread m <;> cases h5 : condStar m <;> cases h6 : condRecent m now <;>
    cases h7 : condCc m <;> cases h8 : condNews m <;>
    simp [score_message, rawScore, ruleReasons, triggeredRules, scoringRules,
      h1, h2, h3, h4, h5, h6, h7, h8]

/-! ## Message listing (`GmailClient.fetch_recent_messages`)

The remote `users().messages().list(...)` pagination is modelled by a
response script: the k-th element of the script is the provider's answer
to the k-th listing call.  `PageResp.ok ids hasNext` is a page of message
identifiers together with the presence of a `nextPageToken`;
`PageResp.err` is an `HttpError` raised by that call.  Message
identifiers are modelled as `Nat`.  Per-message hydration
(`_hydrate_message`, which returns `None` on a missing id or a failed
detail fetch) is abstracted as `hydrate : Nat → Option GmailMessage`. -/

inductive PageResp where
  | ok (ids : List Nat) (hasNext : Bool)
  | err
deriving DecidableEq

/-- The `while True` listing loop of `fetch_recent_messages`: accumulate
page ids and follow `nextPageToken` until none remains; an `HttpError`
aborts the whole listing (the accumulated ids are discarded).  On success
it returns the accumulated ids together with the number of listing calls
made. -/
def listLoop : List PageResp → Except Unit (List Nat × Nat)
  | [] => .error ()
  | .err :: _ => .error ()
  | .ok ids false :: _ => .ok (ids, 1)
  | .ok ids true :: rest =>
    match listLoop rest with
    | .error e => .error e
    | .ok (more, n) => .ok (ids ++ more, n + 1)

/-- Sort key of `hydrated.sort(key=lambda msg: msg.date, reverse=True)`:
`a` may precede `b` iff `a`'s date is at least `b`'s. -/
def dateGe (a b : GmailMessage) : Prop := b.date ≤ a.date

instance : DecidableRel dateGe := fun a b => Int.decLe b.date a.date

instance : IsTotal GmailMessage dateGe := ⟨fun a b => le_total b.date a.date⟩

instance : IsTrans GmailMessage dateGe := ⟨fun _ _ _ h1 h2 => le_trans h2 h1⟩

/-- Python's stable in-place sort with `key=msg.date, reverse=True`,
modelled as a stable insertion sort on the `dateGe` relation. -/
def sortByDateDesc (l : List GmailMessage) : List GmailMessage :=
  List.insertionSort dateGe l

/-- `fetch_recent_messages`: run the listing loop (an `HttpError` there
becomes a single `RuntimeError` for the caller), then hydrate each
identifier, skipping the ones whose hydration returns `None`, and sort
the hydrated messages by date descending. -/
def fetch_recent_messages (script : List PageResp)
    (hydrate : Nat → Option GmailMessage) : Except Unit (List GmailMessage) :=
  match listLoop script with
  | .error e => .error e
  | .ok (ids, _) => .ok (sortByDateDesc (ids.filterMap hydrate))

/-- A well-behaved paged provider for a given page sequence: every page
carries a continuation token except the last. -/
def mkScript : List (List Nat) → List PageResp
  | [] => []
  | [p] => [.ok p false]
  | p :: rest => .ok p true :: mkScript rest

theorem listLoop_mkScript (pages : List (List Nat)) (hne : pages ≠ []) :
    listLoop (mkScript pages) = .ok (pages.flatten, pages.length) := by
  induction pages with
  | nil => exact absurd rfl hne
  | cons p rest ih =>
    cases rest with
    | nil => simp [mkScript, listLoop]
    | cons q rest2 =>
      simp only [mkScript, listLoop, ih (by simp)]
      simp [List.flatten]

theorem length_filterMap_of_all_isSome {α β : Type} (f : α → Option β) :
    ∀ l : List α, l.all (fun i => (f i).isSome) = true →
      (l.filterMap f).length = l.length := by
  intro l
  induction l with
  | nil => intro _; rfl
  | cons a t ih =>
    intro h
    simp only [List.all_cons, Bool.and_eq_true] at h
    obtain ⟨b, hb⟩ := Option.isSome_iff_exists.1 h.1
    simp [List.filterMap_cons, hb, ih h.2]

/-- C2: for every paged listing (pages with continuation tokens until the
last), the fetcher issues exactly one listing call per page, accumulates
all identifiers before hydration, and returns the hydrated messages
sorted by date descending; when no hydration fails the result has one
message per listed identifier. -/
theorem fetch_recent_messages_pagination (pages : List (List Nat))
    (hydrate : Nat → Option GmailMessage) (hne : pages ≠ [])
    (hall : pages.flatten.all (fun i => (hydrate i).isSome) = true) :
    listLoop (mkScript pages) = .ok (pages.flatten, pages.length) ∧
    fetch_recent_messages (mkScript pages) hydrate =
      .ok (sortByDateDesc (pages.flatten.filterMap hydrate)) ∧
    List.Sorted dateGe (sortByDateDesc (pages.flatten.filterMap hydrate)) ∧
    (sortByDateDesc (pages.flatten.filterMap hydrate)).length = pages.flatten.length := by
  refine ⟨listLoop_mkScript pages hne, ?_, ?_, ?_⟩
  · simp [fetch_recent_messages, listLoop_mkScript pages hne]
  · exact List.sorted_insertionSort dateGe _
  · rw [sortByDateDesc, List.length_insertionSort,
      length_filterMap_of_all_isSome hydrate _ hall]

/-- The 3-page 100/100/7 provider stub of §8. -/
def stubPages : List (List Nat) :=
  [List.range 100, (List.range 100).map (· + 100), (List.range 7).map (· + 200)]

/-- A hydration stub that always succeeds, mapping id `i` to a message
dated `i`. -/
def mkStubMsg (i : Nat) : GmailMessage :=
  ⟨toString i, "", "", "", (i : Int), "", [], false, false, false, 1, "", "", "", "", false⟩

def stubHydrate (i : Nat) : Option GmailMessage := some (mkStubMsg i)

/-- Witness for C2: on the 100/100/7 stub the fetcher makes exactly 3
listing calls and returns 207 hydrated messages sorted date-descending. -/
theorem fetch_recent_messages_pagination_witness :
    (stubPages ≠ [] ∧
      stubPages.flatten.all (fun i => (stubHydrate i).isSome) = true) ∧
    listLoop (mkScript stubPages) = .ok (stubPages.flatten, 3) ∧
    fetch_recent_messages (mkScript stubPages) stubHydrate =
      .ok (sortByDateDesc (stubPages.flatten.filterMap stubHydrate)) ∧
    List.Sorted dateGe (sortByDateDesc (stubPages.flatten.filterMap stubHydrate)) ∧
    (sortByDateDesc (stubPages.flatten.filterMap stubHydrate)).length = 207 :=
  have h := fetch_recent_messages_pagination stubPages stubHydrate
    (by decide) (by decide)
  ⟨⟨by decide, by decide⟩, h.1, h.2.1, h.2.2.1, h.2.2.2⟩

/-- C3: an `HttpError` on any listing call fails the whole fetch with a
single error and no partial list, while a failed (`None`) per-message
hydration only drops that message: the successful result is a
permutation of the successfully hydrated messages. -/
theorem fetch_recent_messages_failure (script : List PageResp)
    (hydrate : Nat → Option GmailMessage) :
    (listLoop script = .error () →
      fetch_recent_messages script hydrate = .error ()) ∧
    (∀ ids n, listLoop script = .ok (ids, n) →
      fetch_recent_messages script hydrate =
        .ok (sortByDateDesc (ids.filterMap hydrate)) ∧
      (sortByDateDesc (ids.filterMap hydrate)).Perm (ids.filterMap hydrate)) ∧
    (∀ (pre : List (List Nat)) (rest : List PageResp),
      listLoop (pre.map (fun p => PageResp.ok p true) ++ PageResp.err :: rest) =
        .error ()) := by
  refine ⟨?_, ?_, ?_⟩
  · intro h
    simp [fetch_recent_messages, h]
  · intro ids n h
    exact ⟨by simp [fetch_recent_messages, h], List.perm_insertionSort dateGe _⟩
  · intro pre rest
    induction pre with
    | nil => rfl
    | cons p t ih => simp [listLoop, ih]

/-- Listing script whose second call raises. -/
def scriptErr : List PageResp := [PageResp.ok [1] true, PageResp.err]

/-- Listing script with a single page `[1, 2]`. -/
def scriptOk : List PageResp := [PageResp.ok [1, 2] false]

/-- Hydration stub that fails for every id but `1`. -/
def hydrateOnly1 (i : Nat) : Option GmailMessage :=
  if i = 1 then some (mkStubMsg 1) else none

/-- Witness for C3: on `scriptErr` the fetch fails outright; on
`scriptOk` with hydration failing for id 2, only message 1 is returned. -/
theorem fetch_recent_messages_failure_witness :
    listLoop scriptErr = .error () ∧
    fetch_recent_messages scriptErr hydrateOnly1 = .error () ∧
    fetch_recent_messages scriptOk hydrateOnly1 =
      .ok (sortByDateDesc ([1, 2].filterMap hydrateOnly1)) ∧
    sortByDateDesc ([1, 2].filterMap hydrateOnly1) = [mkStubMsg 1] :=
  have h1 := fetch_recent_messages_failure scriptErr hydrateOnly1
  have h2 := fetch_recent_messages_failure scriptOk hydrateOnly1
  ⟨rfl, h1.1 rfl, (h2.2.1 [1, 2] 1 rfl).1, by decide⟩

/-! ## Thread resolver (`GmailClient._fetch_thread_size`)

The remote `users().threads().get(...)` call is abstracted as
`getThread : String → Except Unit (List Unit)`: either an `HttpError` or
the thread's `messages` list (only its length is used). -/

/-- `_fetch_thread_size`: `1` for a missing (or empty, by Python
falsiness) thread id, `1` on `HttpError`, otherwise
`len(thread.get("messages", []))`. -/
def _fetch_thread_size (getThread : String → Except Unit (List Unit)) :
    Option String → Nat
  | none => 1
  | some tid =>
    if tid = "" then 1
    else
      match getThread tid with
      | .error _ => 1
      | .ok msgs => msgs.length

/-- Counterexample for C6: on a successful thread lookup whose response
contains no `messages`, `_fetch_thread_size` returns `0`, violating
`thread_size ≥ 1`. -/
theorem fetch_thread_size_zero :
    _fetch_thread_size (fun _ => .ok []) (some "t") = 0 := by decide

/-- C6 (amended): the lookup returns the reported message count on
success and `1` on provider error or missing thread id; `thread_size ≥ 1`
holds whenever the successful response is non-empty (but a successful
response with zero messages yields `0`). -/
theorem fetch_thread_size_amended (g : String → Except Unit (List Unit)) :
    _fetch_thread_size g none = 1 ∧
    (∀ t, t ≠ "" → g t = .error () → _fetch_thread_size g (some t) = 1) ∧
    (∀ t msgs, t ≠ "" → g t = .ok msgs →
      _fetch_thread_size g (some t) = msgs.length) ∧
    (∀ t msgs, t ≠ "" → g t = .ok msgs → msgs ≠ [] →
      1 ≤ _fetch_thread_size g (some t)) := by
  refine ⟨rfl, ?_, ?_, ?_⟩
  · intro t ht hg
    simp [_fetch_thread_size, ht, hg]
  · intro t msgs ht hg
    simp [_fetch_thread_size, ht, hg]
  · intro t msgs ht hg hne
    simp [_fetch_thread_size, ht, hg]
    exact List.length_pos.2 hne

/-- Thread provider stub: thread `"ok"` has two messages, anything else
raises. -/
def gStub (t : String) : Except Unit (List Unit) :=
  if t = "ok" then .ok [(), ()] else .error ()

/-- Witness for C6 (amended) on the `gStub` provider. -/
theorem fetch_thread_size_amended_witness :
    _fetch_thread_size gStub none = 1 ∧
    ("bad" ≠ "" ∧ _fetch_thread_size gStub (some "bad") = 1) ∧
    ("ok" ≠ "" ∧ gStub "ok" = .ok [(), ()] ∧
      _fetch_thread_size gStub (some "ok") = 2 ∧
      1 ≤ _fetch_thread_size gStub (some "ok")) :=
  have h := fetch_thread_size_amended gStub
  ⟨h.1, ⟨by decide, h.2.1 "bad" (by decide) rfl⟩,
    ⟨by decide, rfl, h.2.2.1 "ok" [(), ()] (by decide) rfl,
      h.2.2.2 "ok" [(), ()] (by decide) rfl (by decide)⟩⟩

/-! ## Base64url, UTF-8 and HTML models for the body extractor -/

/-- Value of a standard-alphabet base64 character. -/
def b64Val (c : Char) : Option Nat :=
  if 'A' ≤ c ∧ c ≤ 'Z' then some (c.toNat - 65)
  else if 'a' ≤ c ∧ c ≤ 'z' then some (c.toNat - 97 + 26)
  else if '0' ≤ c ∧ c ≤ '9' then some (c.toNat - 48 + 52)
  else if c = '+' then some 62
  else if c = '/' then some 63
  else none

/-- Bytes encoded by a (possibly final, shortened) base64 group. -/
def b64Group : List Nat → List Nat
  | [a, b, c, d] => [a * 4 + b / 16, b % 16 * 16 + c / 4, c % 4 * 64 + d]
  | [a, b, c] => [a * 4 + b / 16, b % 16 * 16 + c / 4]
  | [a, b] => [a * 4 + b / 16]
  | _ => []

/-- Scanning loop of CPython's lenient `binascii.a2b_base64`:
characters outside the alphabet are skipped, `=` flushes a group of two
or three pending characters, and leftover pending characters at the end
raise `binascii.Error` (incorrect padding). -/
def b64Loop : List Char → List Nat → List Nat → Except Unit (List Nat)
  | [], pending, out => if pending.isEmpty then .ok out else .error ()
  | '=' :: rest, pending, out =>
    if pending.length = 2 ∨ pending.length = 3 then b64Loop rest [] (out ++ b64Group pending)
    else b64Loop rest pending out
  | c :: rest, pending, out =>
    match b64Val c with
    | none => b64Loop rest pending out
    | some v =>
      let p := pending ++ [v]
      if p.length = 4 then b64Loop rest [] (out ++ b64Group p) else b64Loop rest p out

/-- Model of Python's `base64.urlsafe_b64decode` on a text input:
translate `-`/`_` to `+`/`/` and run the lenient base64 scanner;
`.error` models the `binascii.Error` it can raise. -/
def urlsafe_b64decode (s : String) : Except Unit (List Nat) :=
  b64Loop (s.toList.map (fun c => if c = '-' then '+' else if c = '_' then '/' else c)) [] []

/-- Model of `bytes.decode("utf-8", errors="ignore")`: decode UTF-8,
skipping bytes that do not start a valid (non-overlong, non-surrogate)
sequence.  Fuel-driven so the recursion is structural; each step consumes
at least one byte, so `fuel = length` suffices. -/
def utf8Aux : Nat → List Nat → List Char
  | 0, _ => []
  | _ + 1, [] => []
  | fuel + 1, b :: rest =>
    if b < 128 then Char.ofNat b :: utf8Aux fuel rest
    else if 194 ≤ b ∧ b ≤ 223 then
      match rest with
      | b2 :: rest2 =>
        if 128 ≤ b2 ∧ b2 ≤ 191 then
          Char.ofNat ((b - 192) * 64 + (b2 - 128)) :: utf8Aux fuel rest2
        else utf8Aux fuel rest
      | [] => []
    else if 224 ≤ b ∧ b ≤ 239 then
      match rest with
      | b2 :: b3 :: rest3 =>
        let v := (b - 224) * 4096 + (b2 - 128) * 64 + (b3 - 128)
        if (128 ≤ b2 ∧ b2 ≤ 191) ∧ (128 ≤ b3 ∧ b3 ≤ 191) ∧
            2048 ≤ v ∧ (v < 55296 ∨ 57343 < v) then
          Char.ofNat v :: utf8Aux fuel rest3
        else utf8Aux fuel rest
      | _ => utf8Aux fuel rest
    else if 240 ≤ b ∧ b ≤ 244 then
      match rest with
      | b2 :: b3 :: b4 :: rest4 =>
        let v := (b - 240) * 262144 + (b2 - 128) * 4096 + (b3 - 128) * 64 + (b4 - 128)
        if (128 ≤ b2 ∧ b2 ≤ 191) ∧ (128 ≤ b3 ∧ b3 ≤ 191) ∧ (128 ≤ b4 ∧ b4 ≤ 191) ∧
            65536 ≤ v ∧ v ≤ 1114111 then
          Char.ofNat v :: utf8Aux fuel rest4
        else utf8Aux fuel rest
      | _ => utf8Aux fuel rest
    else utf8Aux fuel rest

def utf8DecodeIgnore (l : List Nat) : List Char := utf8Aux l.length l

/-- Bytes to string via UTF-8 with errors ignored. -/
def utf8String (bytes : List Nat) : String := (utf8DecodeIgnore bytes).asString


/-- Very small model of BeautifulSoup's `html.parser` tokenisation:
alternating text runs and `<...>` tag runs. -/
inductive HtmlTok where
  | tag (inner : String)
  | text (s : String)
deriving DecidableEq

/-- Split a character stream into tag and text tokens (`mode` is true
inside a `<...>` tag; `acc` holds the current run, reversed). -/
def tokenizeHtml : List Char → Bool → List Char → List HtmlTok
  | [], false, acc => if acc.isEmpty then [] else [.text acc.reverse.asString]
  | [], true, acc => [.tag acc.reverse.asString]
  | '<' :: rest, false, acc =>
    if acc.isEmpty then tokenizeHtml rest true []
    else .text acc.reverse.asString :: tokenizeHtml rest true []
  | '>' :: rest, true, acc => .tag acc.reverse.asString :: tokenizeHtml rest false []
  | c :: rest, mode, acc => tokenizeHtml rest mode (c :: acc)

/-- Model of `BeautifulSoup(html, "html.parser").get_text(sep)`: the
document's text nodes joined by `sep`. -/
def get_text (sep : String) (html : String) : String :=
  String.intercalate sep
    ((tokenizeHtml html.toList false []).filterMap
      (fun tk => match tk with | .text s => some s | .tag _ => none))

def indentStr (n : Nat) : String := String.mk (List.replicate n ' ')


/-- One output line per token, indented one space per nesting depth. -/
def prettifyLines : List HtmlTok → Nat → List String
  | [], _ => []
  | .tag inner :: rest, d =>
    if inner.toList.head? = some '/' then
      (indentStr (d - 1) ++ "<" ++ inner ++ ">") :: prettifyLines rest (d - 1)
    else (indentStr d ++ "<" ++ inner ++ ">") :: prettifyLines rest (d + 1)
  | .text s :: rest, d =>
    let t := pyStrip s
    if t = "" then prettifyLines rest d
    else (indentStr d ++ t) :: prettifyLines rest d

/-- Model of `BeautifulSoup(html, "html.parser").prettify()`: re-serialise
the document with each tag and stripped text run on its own indented
line. -/
def prettify (html : String) : String :=
  String.intercalate "\n" (prettifyLines (tokenizeHtml html.toList false []) 0)


/-! ## Body extractor (`GmailClient._extract_bodies`) -/

/-- A MIME payload tree node: `mimeType`, optional base64url `body.data`,
and immediate child `parts`. -/
structure Payload where
  mimeType : String
  data : Option String
  parts : List Payload

/-- The `_decode` closure of `_extract_bodies`: missing or empty
`body.data` yields `""`; otherwise base64url-decode (`binascii.Error`
propagates), decode UTF-8 ignoring errors, and re-serialise through
BeautifulSoup (`prettify`) when the part is `text/html`. -/
def _decode (p : Payload) : Except Unit String :=
  match p.data with
  | none => .ok ""
  | some s =>
    if s = "" then .ok ""
    else
      match urlsafe_b64decode s with
      | .error e => .error e
      | .ok bytes =>
        let decoded := utf8String bytes
        if p.mimeType = "text/html" then .ok (prettify decoded) else .ok decoded

/-- The base64url+UTF-8 decoding of a `body.data` value, without the
HTML re-serialisation (what the spec calls the decoded part). -/
def decodedData (s : String) : Except Unit String :=
  (urlsafe_b64decode s).map utf8String

/-- The multipart scan of `_extract_bodies`: one pass over the immediate
children; a `text/plain` child is decoded into the `text` slot when that
slot is falsy (empty), a `text/html` child into the `html` slot when that
slot is falsy. -/
def scanParts : List Payload → String → String → Except Unit (String × String)
  | [], t, h => .ok (t, h)
  | p :: ps, t, h =>
    if p.mimeType = "text/plain" ∧ t = "" then
      match _decode p with
      | .error e => .error e
      | .ok s => scanParts ps s h
    else if p.mimeType = "text/html" ∧ h = "" then
      match _decode p with
      | .error e => .error e
      | .ok s => scanParts ps t s
    else scanParts ps t h

/-- `_extract_bodies`: `text/plain` root → `(text, "")`; `text/html` root
→ `(stripped text, html)`; otherwise scan the immediate children, and if
no plain text was found but HTML was, derive the text from the HTML. -/
def _extract_bodies (p : Payload) : Except Unit (String × String) :=
  if p.mimeType = "text/plain" then
    match _decode p with
    | .error e => .error e
    | .ok t => .ok (t, "")
  else if p.mimeType = "text/html" then
    match _decode p with
    | .error e => .error e
    | .ok html => .ok (get_text "\n" html, html)
  else
    match scanParts p.parts "" "" with
    | .error e => .error e
    | .ok (t, h) =>
      if t = "" ∧ h ≠ "" then .ok (get_text "\n" h, h) else .ok (t, h)

/-- §8's round-trip payload: a multipart node with a `text/plain` child
"Hello" and a `text/html` child `<p>Hi</p>`, base64url-encoded. -/
def payloadC4 : Payload :=
  ⟨"multipart/alternative", none,
    [⟨"text/plain", some "SGVsbG8=", []⟩, ⟨"text/html", some "PHA-SGk8L3A-", []⟩]⟩

/-- Counterexample for C4: the extractor re-serialises the HTML part
through BeautifulSoup's `prettify`, so `bodyHtml` is not the decoded
part unmodified: it gains newlines and indentation. -/
theorem extract_bodies_prettifies :
    _extract_bodies payloadC4 = .ok ("Hello", "<p>\n Hi\n</p>") ∧
    decodedData "PHA-SGk8L3A-" = .ok "<p>Hi</p>" ∧
    ("<p>\n Hi\n</p>" : String) ≠ "<p>Hi</p>" := by
  refine ⟨by decide, by decide, by decide⟩

/-- Helper: decoding the empty data string succeeds with `""`. -/
theorem decodedData_empty : decodedData "" = .ok "" := rfl

/-- Helper: prettifying the empty document gives the empty string. -/
theorem prettify_empty : prettify "" = "" := rfl

/-- Helper: `_decode` on a non-HTML part with non-empty data is plain
base64url+UTF-8 decoding. -/
theorem decode_plain (mt s : String) (parts : List Payload)
    (hmt : mt ≠ "text/html") (hs : s ≠ "") :
    _decode ⟨mt, some s, parts⟩ = decodedData s := by
  simp only [_decode, decodedData, if_neg hs]
  cases hb : urlsafe_b64decode s <;> simp [hb, Except.map, hmt]

/-- Helper: `_decode` on a `text/html` part with non-empty data decodes
and then prettifies. -/
theorem decode_html (s : String) (parts : List Payload) (hs : s ≠ "") :
    _decode ⟨"text/html", some s, parts⟩ = (decodedData s).map prettify := by
  simp only [_decode, decodedData, if_neg hs]
  cases hb : urlsafe_b64decode s <;> simp [hb, Except.map]

/-- Helper: a `text/plain` child fills an empty text slot. -/
theorem scanParts_cons_plain (p : Payload) (ps : List Payload) (h s : String)
    (hmime : p.mimeType = "text/plain") (hd : _decode p = .ok s) :
    scanParts (p :: ps) "" h = scanParts ps s h := by
  simp [scanParts, hmime, hd]

/-- Helper: a `text/html` child fills an empty html slot. -/
theorem scanParts_cons_html (p : Payload) (ps : List Payload) (t s : String)
    (hmime : p.mimeType = "text/html") (hd : _decode p = .ok s) :
    scanParts (p :: ps) t "" = scanParts ps t s := by
  simp [scanParts, hmime, hd]

/-- C4 (amended): for a multipart payload with a `text/plain` child and a
`text/html` child, `bodyText` is the decoded plain part verbatim, and
`bodyHtml` is the decoded HTML part re-serialised by `prettify` (same
content, whitespace re-formatted) rather than byte-identical. -/
theorem extract_bodies_both_parts (mt td hd t h : String)
    (hmt1 : mt ≠ "text/plain") (hmt2 : mt ≠ "text/html")
    (htd : decodedData td = .ok t) (ht : t ≠ "")
    (hhd : decodedData hd = .ok h) :
    _extract_bodies
        ⟨mt, none, [⟨"text/plain", some td, []⟩, ⟨"text/html", some hd, []⟩]⟩ =
      .ok (t, prettify h) := by
  have htd' : td ≠ "" := by
    intro hemp
    rw [hemp, decodedData_empty] at htd
    injection htd with hx
    exact ht hx.symm
  have hplain : _decode ⟨"text/plain", some td, []⟩ = .ok t := by
    rw [decode_plain _ _ _ (by decide) htd']; exact htd
  by_cases hhd0 : hd = ""
  · have h0 : h = "" := by
      rw [hhd0, decodedData_empty] at hhd
      injection hhd with hx
      exact hx.symm
    have hhtml : _decode ⟨"text/html", some hd, []⟩ = .ok "" := by
      rw [hhd0]; rfl
    simp only [_extract_bodies, if_neg hmt1, if_neg hmt2, scanParts]
    rw [hplain, hhtml]
    simp [ht, h0, prettify_empty]
  · have hhtml : _decode ⟨"text/html", some hd, []⟩ = .ok (prettify h) := by
      rw [decode_html _ _ hhd0, hhd]; rfl
    simp only [_extract_bodies, if_neg hmt1, if_neg hmt2, scanParts]
    rw [hplain, hhtml]
    simp [ht]

/-- C4 witness: the §8 round-trip payload instantiates the amended C4. -/
theorem extract_bodies_both_parts_witness :
    (("multipart/alternative" : String) ≠ "text/plain" ∧
      ("multipart/alternative" : String) ≠ "text/html" ∧
      decodedData "SGVsbG8=" = .ok "Hello" ∧ ("Hello" : String) ≠ "" ∧
      decodedData "PHA-SGk8L3A-" = .ok "<p>Hi</p>") ∧
    _extract_bodies payloadC4 = .ok ("Hello", prettify "<p>Hi</p>") :=
  ⟨⟨by decide, by decide, by decide, by decide, by decide⟩,
    extract_bodies_both_parts "multipart/alternative" "SGVsbG8=" "PHA-SGk8L3A-"
      "Hello" "<p>Hi</p>" (by decide) (by decide) (by decide) (by decide) (by decide)⟩

/-- A payload node whose `body.data`, if present, is empty or valid
base64url (so its `_decode` cannot raise). -/
def dataOk (q : Payload) : Bool :=
  match q.data with
  | none => true
  | some s => s = "" || (urlsafe_b64decode s).isOk

/-- Helper: `_decode` succeeds on a part with well-formed data. -/
theorem decode_isOk (q : Payload) (hq : dataOk q = true) :
    (_decode q).isOk = true := by
  rcases q with ⟨mt, dt, parts⟩
  cases dt with
  | none => rfl
  | some s =>
    simp only [dataOk, Bool.or_eq_true, decide_eq_true_eq] at hq
    by_cases hs : s = ""
    · simp [_decode, hs, Except.isOk, Except.toBool]
    · rcases hq with hq | hq
      · exact absurd hq hs
      · simp only [_decode, if_neg hs]
        cases hb : urlsafe_b64decode s with
        | error e => rw [hb] at hq; exact absurd hq (by simp [Except.isOk, Except.toBool])
        | ok bytes => by_cases hm : mt = "text/html" <;> simp [hm, Except.isOk, Except.toBool]

/-- Helper: the multipart scan succeeds when every child has well-formed
data. -/
theorem scanParts_isOk (ps : List Payload) (hps : ps.all dataOk = true) :
    ∀ t h, (scanParts ps t h).isOk = true := by
  induction ps with
  | nil => intro t h; rfl
  | cons p rest ih =>
    simp only [List.all_cons, Bool.and_eq_true] at hps
    intro t h
    simp only [scanParts]
    have hdp := decode_isOk p hps.1
    by_cases c1 : p.mimeType = "text/plain" ∧ t = ""
    · rw [if_pos c1]
      cases hd : _decode p with
      | error e => rw [hd] at hdp; exact absurd hdp (by simp [Except.isOk, Except.toBool])
      | ok s => exact ih hps.2 s h
    · rw [if_neg c1]
      by_cases c2 : p.mimeType = "text/html" ∧ h = ""
      · rw [if_pos c2]
        cases hd : _decode p with
        | error e => rw [hd] at hdp; exact absurd hdp (by simp [Except.isOk, Except.toBool])
        | ok s => exact ih hps.2 t s
      · rw [if_neg c2]; exact ih hps.2 t h

/-- A `text/plain` root payload whose data `"A"` is not valid base64
(one data character is one more than a multiple of four). -/
def payloadC5 : Payload := ⟨"text/plain", some "A", []⟩

/-- Counterexample for C5: a part whose data fails base64 decoding makes
the extractor raise (`binascii.Error` is not caught), rather than
contributing an empty string. -/
theorem extract_bodies_decode_error :
    _extract_bodies payloadC5 = .error () ∧ urlsafe_b64decode "A" = .error () := by
  refine ⟨by decide, by decide⟩

/-- C5 (amended): a part with missing data contributes an empty string,
and extraction returns a pair whenever all present data decodes; but a
data string that fails base64 decoding raises an error that propagates
out of the extractor (it does not yield an empty string). -/
theorem extract_bodies_total_amended (p : Payload)
    (hroot : dataOk p = true) (hparts : p.parts.all dataOk = true) :
    (_extract_bodies p).isOk = true ∧
    ∀ (mtp : String) (parts : List Payload), _decode ⟨mtp, none, parts⟩ = .ok "" := by
  refine ⟨?_, fun mtp parts => rfl⟩
  have hdp := decode_isOk p hroot
  simp only [_extract_bodies]
  by_cases c1 : p.mimeType = "text/plain"
  · rw [if_pos c1]
    cases hd : _decode p with
    | error e => rw [hd] at hdp; exact absurd hdp (by simp [Except.isOk, Except.toBool])
    | ok s => rfl
  · rw [if_neg c1]
    by_cases c2 : p.mimeType = "text/html"
    · rw [if_pos c2]
      cases hd : _decode p with
      | error e => rw [hd] at hdp; exact absurd hdp (by simp [Except.isOk, Except.toBool])
      | ok s => rfl
    · rw [if_neg c2]
      have hscan := scanParts_isOk p.parts hparts "" ""
      cases hs : scanParts p.parts "" "" with
      | error e => rw [hs] at hscan; exact absurd hscan (by simp [Except.isOk, Except.toBool])
      | ok th =>
        rcases th with ⟨t, h⟩
        by_cases c3 : t = "" ∧ h ≠ "" <;> simp [c3, Except.isOk, Except.toBool]

/-- A `text/plain` root payload with no data at all. -/
def payloadC5w : Payload := ⟨"text/plain", none, []⟩

/-- C5 (amended) witness. -/
theorem extract_bodies_total_amended_witness :
    (dataOk payloadC5w = true ∧ payloadC5w.parts.all dataOk = true) ∧
    (_extract_bodies payloadC5w).isOk = true ∧
    _decode ⟨"multipart/mixed", none, []⟩ = .ok "" :=
  have hh := extract_bodies_total_amended payloadC5w (by decide) (by decide)
  ⟨⟨by decide, by decide⟩, hh.1, hh.2 "multipart/mixed" []⟩

/-- Multipart payload whose first `text/plain` child has no data (so
decodes to `""`) and whose second `text/plain` child decodes to
"Hello". -/
def payloadC9 : Payload :=
  ⟨"multipart/mixed", none,
    [⟨"text/plain", none, []⟩, ⟨"text/plain", some "SGVsbG8=", []⟩]⟩

/-- Counterexample for C9: the guard is `not text` (emptiness), not
"already seen", so a first `text/plain` child that decodes to the empty
string is overwritten by a later `text/plain` child: the extracted text
is "Hello", not the first child's `""`. -/
theorem extract_bodies_second_plain_wins :
    _extract_bodies payloadC9 = .ok ("Hello", "") ∧
    _decode ⟨"text/plain", none, []⟩ = .ok "" ∧
    ("Hello" : String) ≠ "" := ⟨by decide, rfl, by decide⟩

/-- C9 (amended): the scan takes the first child of each mimeType whose
decoded content is non-empty: a slot holding a non-empty value is never
overwritten by a later child, and when the text slot is empty a
`text/plain` child whose decode is non-empty fixes the final text. -/
theorem scanParts_first_nonempty :
    (∀ (ps : List Payload) (t h t' h' : String), scanParts ps t h = .ok (t', h') →
      (t ≠ "" → t' = t) ∧ (h ≠ "" → h' = h)) ∧
    (∀ (p : Payload) (ps : List Payload) (h0 s t' h' : String),
      p.mimeType = "text/plain" → _decode p = .ok s → s ≠ "" →
      scanParts (p :: ps) "" h0 = .ok (t', h') → t' = s) := by
  have part1 : ∀ (ps : List Payload) (t h t' h' : String),
      scanParts ps t h = .ok (t', h') → (t ≠ "" → t' = t) ∧ (h ≠ "" → h' = h) := by
    intro ps
    induction ps with
    | nil =>
      intro t h t' h' hs
      simp only [scanParts] at hs
      injection hs with hx
      rw [Prod.mk.injEq] at hx
      exact ⟨fun _ => hx.1.symm, fun _ => hx.2.symm⟩
    | cons p rest ih =>
      intro t h t' h' hs
      simp only [scanParts] at hs
      by_cases c1 : p.mimeType = "text/plain" ∧ t = ""
      · rw [if_pos c1] at hs
        cases hd : _decode p with
        | error e => rw [hd] at hs; cases hs
        | ok s =>
          rw [hd] at hs
          exact ⟨fun htne => absurd c1.2 htne, (ih _ _ _ _ hs).2⟩
      · rw [if_neg c1] at hs
        by_cases c2 : p.mimeType = "text/html" ∧ h = ""
        · rw [if_pos c2] at hs
          cases hd : _decode p with
          | error e => rw [hd] at hs; cases hs
          | ok s =>
            rw [hd] at hs
            exact ⟨(ih _ _ _ _ hs).1, fun hhne => absurd c2.2 hhne⟩
        · rw [if_neg c2] at hs
          exact ih _ _ _ _ hs
  refine ⟨part1, ?_⟩
  intro p ps h0 s t' h' hmime hdec hsne hscan
  rw [scanParts_cons_plain p ps h0 s hmime hdec] at hscan
  exact (part1 ps s h0 t' h' hscan).1 hsne

/-- First scan child: decodes to "Hello". -/
def partA : Payload := ⟨"text/plain", some "SGVsbG8=", []⟩

/-- Second scan child: decodes to "World". -/
def partB : Payload := ⟨"text/plain", some "V29ybGQ=", []⟩

/-- C9 (amended) witness: with the text slot filled by "Hello" from the
first child, the later "World" child does not overwrite it. -/
theorem scanParts_first_nonempty_witness :
    (partA.mimeType = "text/plain" ∧ _decode partA = .ok "Hello" ∧
      ("Hello" : String) ≠ "" ∧
      scanParts [partA, partB] "" "" = .ok ("Hello", "") ∧
      _decode partB = .ok "World") ∧
    "Hello" = "Hello" :=
  ⟨⟨rfl, by decide, by decide, by decide, by decide⟩,
    scanParts_first_nonempty.2 partA [partB] "" "Hello" "Hello" ""
      rfl (by decide) (by decide) (by decide)⟩

/-! ## Reply composer (`reply_generation.py`) -/

/-- `ReplyContext` dataclass. -/
structure ReplyContext where
  subject : String
  sender : String
  snippet : String
  body_text : String
deriving DecidableEq

/-- Context built by `generate_reply`:
`body_text=message.body_text or message.snippet`. -/
def mkReplyContext (m : GmailMessage) : ReplyContext :=
  ⟨m.subject, m.sender, m.snippet, if m.body_text ≠ "" then m.body_text else m.snippet⟩

/-- The bounded prompt built by `generate_reply` (body truncated to 2000
characters). -/
def mkPrompt (c : ReplyContext) : String :=
  "Email subject: " ++ c.subject ++ "\n" ++
  "From: " ++ c.sender ++ "\n" ++
  "Summary/snippet: " ++ c.snippet ++ "\n" ++
  "Body: " ++ c.body_text.take 2000 ++ "\n" ++
  "Compose a brief and polite reply in French, include a TL;DR sentence and one clarifying question if more information is required."

/-- `_rule_based_reply`: deterministic template reply. -/
def _rule_based_reply (context : ReplyContext) : String :=
  let name := pyStrip (context.sender.takeWhile (fun c => c ≠ '<'))
  let greeting := "Bonjour " ++ (if name ≠ "" then name else "à tous") ++ ","
  let tldr :=
    pyStrip ("TL;DR : " ++ (if context.snippet ≠ "" then context.snippet
      else context.body_text.take 140))
  let next_step := "N'hésite pas à me dire si tu as besoin d'informations supplémentaires."
  greeting ++ "\n\n" ++ tldr ++ "\n\n" ++ next_step ++ "\n\nBien à vous,\n[Votre nom]"

/-- `generate_reply`.  The delegated generation path `_call_openai_api`
is abstracted as `api : String → Option String` mapping the prompt to its
result: `none` models every failure mode (missing `OPENAI_API_KEY`,
missing `openai` module, or any exception, all caught and turned into
`None` by the code); `some r` models a successful response with stripped
content `r`.  The Python truthiness test `if ai_reply:` also falls back
when the response is the empty string. -/
def generate_reply (api : String → Option String) (m : GmailMessage) : String :=
  let context := mkReplyContext m
  let prompt := mkPrompt context
  match api prompt with
  | some r => if r ≠ "" then r else _rule_based_reply context
  | none => _rule_based_reply context

/-- Helper: the template reply is never empty. -/
theorem rule_based_reply_ne_empty (c : ReplyContext) : _rule_based_reply c ≠ "" := by
  intro hcontra
  have hlen := congrArg String.length hcontra
  simp only [_rule_based_reply, String.length_append] at hlen
  have hb : ("," : String).length = 1 := rfl
  have hh : ("" : String).length = 0 := rfl
  omega

/-- C7: `generate_reply` always returns a non-empty string and never
propagates an error: when the delegated path fails (returns `none`) or
returns an empty response, the result is exactly the deterministic
template reply. -/
theorem generate_reply_total (api : String → Option String) (m : GmailMessage) :
    generate_reply api m ≠ "" ∧
    (api (mkPrompt (mkReplyContext m)) = none →
      generate_reply api m = _rule_based_reply (mkReplyContext m)) ∧
    (∀ r, api (mkPrompt (mkReplyContext m)) = some r → r = "" →
      generate_reply api m = _rule_based_reply (mkReplyContext m)) := by
  refine ⟨?_, ?_, ?_⟩
  · simp only [generate_reply]
    cases hapi : api (mkPrompt (mkReplyContext m)) with
    | none => exact rule_based_reply_ne_empty _
    | some r =>
      by_cases hr : r = ""
      · simp [hr]
        exact rule_based_reply_ne_empty _
      · simp [hr]
  · intro hapi
    simp [generate_reply, hapi]
  · intro r hapi hr
    simp [generate_reply, hapi, hr]

/-- Concrete message for the C7 witness. -/
def msgC7 : GmailMessage :=
  ⟨"id1", "t1", "Question", "Alice <a@x>", 0, "snippet", [], true, false, false, 1,
    "body", "", "", "", false⟩

/-- C7 witness: with every delegated call failing, the reply is the
non-empty template. -/
theorem generate_reply_total_witness :
    generate_reply (fun _ => none) msgC7 ≠ "" ∧
    generate_reply (fun _ => none) msgC7 = _rule_based_reply (mkReplyContext msgC7) :=
  have hh := generate_reply_total (fun _ => none) msgC7
  ⟨hh.1, hh.2.1 rfl⟩

/-! ## Header processing in `_hydrate_message` -/

/-- Model of
the dict comprehension lowering header names in `_hydrate_message`
followed by `headers.get(key)`: the dictionary keeps the last value for a
duplicated lowercased name. -/
def headerGet (hs : List (String × String)) (key : String) : Option String :=
  hs.foldl (fun acc p => if pyLower p.1 = key then some p.2 else acc) none

/-- `subject = headers.get("subject", "(Sans objet)")`. -/
def hydrateSubject (hs : List (String × String)) : String :=
  (headerGet hs "subject").getD "(Sans objet)"

/-- `date_str = headers.get("date")` followed by
`date_parser.parse(date_str) if date_str else datetime.now(timezone.utc)`.
`parseDate` abstracts `dateutil.parser.parse`: `none` models a
`ParserError`, which the code does not catch, so it propagates
(`.error`), failing the message's hydration. -/
def hydrateDate (parseDate : String → Option Int) (now : Int)
    (hs : List (String × String)) : Except Unit Int :=
  match headerGet hs "date" with
  | none => .ok now
  | some s =>
    if s = "" then .ok now
    else
      match parseDate s with
      | some d => .ok d
      | none => .error ()

/-- Counterexample for C8: a present but unparsable Date header is not
defaulted to "now": the parse error propagates and hydration fails. -/
theorem hydrateDate_unparsable_raises :
    hydrateDate (fun _ => none) 0 [("Date", "not a date")] = .error () ∧
    hydrateDate (fun _ => none) 0 [("Date", "not a date")] ≠ .ok 0 := by
  have h : hydrateDate (fun _ => none) 0 [("Date", "not a date")] = .error () := by decide
  exact ⟨h, by rw [h]; exact fun hc => Except.noConfusion hc⟩

/-- C8 (amended): header lookup is case-insensitive; a missing Subject
header defaults to the fixed placeholder; a missing (or empty) Date
header defaults to "now"; but a present, non-empty Date header that does
not parse raises an error that fails hydration. -/
theorem hydrate_headers_amended (parseDate : String → Option Int) (now : Int)
    (hs : List (String × String)) :
    (∀ name v key, pyLower name = key → headerGet [(name, v)] key = some v) ∧
    (headerGet hs "subject" = none → hydrateSubject hs = "(Sans objet)") ∧
    (∀ v, headerGet hs "subject" = some v → hydrateSubject hs = v) ∧
    (headerGet hs "date" = none → hydrateDate parseDate now hs = .ok now) ∧
    (∀ s d, headerGet hs "date" = some s → s ≠ "" → parseDate s = some d →
      hydrateDate parseDate now hs = .ok d) ∧
    (∀ s, headerGet hs "date" = some s → s ≠ "" → parseDate s = none →
      hydrateDate parseDate now hs = .error ()) := by
  refine ⟨?_, ?_, ?_, ?_, ?_, ?_⟩
  · intro name v key hk
    simp [headerGet, hk]
  · intro hnone
    simp [hydrateSubject, hnone]
  · intro v hsome
    simp [hydrateSubject, hsome]
  · intro hnone
    simp [hydrateDate, hnone]
  · intro s d hsome hne hp
    simp [hydrateDate, hsome, hne, hp]
  · intro s hsome hne hp
    simp [hydrateDate, hsome, hne, hp]

/-- Header list for the C8 witness: mixed-case names. -/
def headersC8 : List (String × String) := [("Subject", "Hello"), ("DATE", "x")]

/-- Date parser stub for the C8 witness. -/
def parseDateStub (s : String) : Option Int := if s = "x" then some 42 else none

/-- C8 (amended) witness. -/
theorem hydrate_headers_amended_witness :
    headerGet [("Subject", "Hello")] "subject" = some "Hello" ∧
    hydrateSubject ([] : List (String × String)) = "(Sans objet)" ∧
    hydrateSubject headersC8 = "Hello" ∧
    hydrateDate parseDateStub 7 ([] : List (String × String)) = .ok 7 ∧
    hydrateDate parseDateStub 7 headersC8 = .ok 42 :=
  have h1 := hydrate_headers_amended parseDateStub 7 headersC8
  have h2 := hydrate_headers_amended parseDateStub 7 ([] : List (String × String))
  ⟨h1.1 "Subject" "Hello" "subject" (by decide),
    h2.2.1 rfl,
    h1.2.2.1 "Hello" (by decide),
    h2.2.2.2.1 rfl,
    h1.2.2.2.2.1 "x" 42 (by decide) (by decide) rfl⟩

/-- `cc_only = bool(cc_header and not to_header)` with
`to_header = headers.get("to", "")`, `cc_header = headers.get("cc", "")`. -/
def hydrateCcOnly (hs : List (String × String)) : Bool :=
  decide ((headerGet hs "cc").getD "" ≠ "" ∧ (headerGet hs "to").getD "" = "")

/-- Follows the spec's words, for comparison with the code's
`hydrateCcOnly`: "true iff the message has a Cc header and no To header
naming the user" — a To header names the user when its value mentions
the user's address. -/
def ccOnlySpec (user : String) (hs : List (String × String)) : Bool :=
  (headerGet hs "cc").isSome && !(strContains ((headerGet hs "to").getD "") user)

/-- Headers where the user is only a copy recipient but the To header
names someone else. -/
def hsC10 : List (String × String) := [("To", "bob@example.com"), ("Cc", "user@example.com")]

/-- Counterexample for C10: with a To header naming someone other than
the user, the code's `cc_only` is false although the user is not a
primary addressee (the spec predicate is true). -/
theorem cc_only_counterexample :
    hydrateCcOnly hsC10 = false ∧ ccOnlySpec "user@example.com" hsC10 = true ∧
    ("user@example.com" : String) ≠ "" := ⟨by decide, by decide, by decide⟩

/-- C10 (amended): `cc_only` is true iff the Cc header is present and
non-empty and the To header is absent or empty, regardless of whom the
To header names; this implies the user is not a primary addressee, but
not conversely. -/
theorem cc_only_amended (hs : List (String × String)) (user : String) (huser : user ≠ "") :
    (hydrateCcOnly hs = true ↔
      ((headerGet hs "cc").getD "" ≠ "" ∧ (headerGet hs "to").getD "" = "")) ∧
    (hydrateCcOnly hs = true → ccOnlySpec user hs = true) := by
  constructor
  · simp [hydrateCcOnly]
  · intro hcode
    simp only [hydrateCcOnly, decide_eq_true_eq] at hcode
    obtain ⟨hcc, hto⟩ := hcode
    have h1 : (headerGet hs "cc").isSome = true := by
      cases hc : headerGet hs "cc" with
      | none => rw [hc] at hcc; simp at hcc
      | some v => rfl
    have h2 : strContains "" user = false := by
      rcases user with ⟨d⟩
      cases d with
      | nil => exact absurd rfl huser
      | cons c cs => rfl
    simp [ccOnlySpec, hto, h1, h2]

/-- C10 (amended) witness: Cc present, To absent. -/
theorem cc_only_amended_witness :
    ("user@example.com" : String) ≠ "" ∧
    hydrateCcOnly [("Cc", "user@example.com")] = true ∧
    ccOnlySpec "user@example.com" [("Cc", "user@example.com")] = true :=
  have hh := cc_only_amended [("Cc", "user@example.com")] "user@example.com" (by decide)
  ⟨by decide, by decide, hh.2 (by decide)⟩

